import Mathlib

/-!
Shallow embedding of `jungle/ec2.py`: an EC2 CLI that lists instances,
starts/stops them, and composes SSH login commands (optionally through a
gateway/bastion host).  Python optional strings become `Option String`
(`pyStr` is Python's `str(...)` on such a value: `None` prints as "None").
`sys.exit c` is modelled as `Except.error c`; interactive prompt input is an
explicit `Option Int` parameter (`none` = the user pressed enter, taking
click's default of 0).  The boto3 provider is an abstract environment `EC2`
supplying the by-id lookup and the filtered-query results.
-/

namespace Jungle

/-- One tag of an EC2 instance (`{'Key': ..., 'Value': ...}`). -/
structure Tag where
  key : String
  value : String
deriving DecidableEq

/-- The fields of a boto3 `ec2.Instance` read by `ec2.py`.  `state_Name` is
`instance.state['Name']`; the addresses and `key_name` may be absent. -/
structure Instance where
  id : String
  tags : Option (List Tag)
  state_Name : String
  private_ip_address : Option String
  public_ip_address : Option String
  key_name : Option String
deriving DecidableEq

/-- Python `str(x)` on an optional string: `str(None) = "None"`. -/
def pyStr : Option String → String
  | none => "None"
  | some s => s

/-- Splitting accumulator: cut the character list at every occurrence of
`sep` (Python `str.split(sep)` for a one-character separator, which is the
only kind `ec2.py` uses). -/
def splitCharAux (sep : Char) : List Char → List Char → List (List Char)
  | [], acc => [acc.reverse]
  | c :: cs, acc =>
    if c = sep then acc.reverse :: splitCharAux sep cs []
    else splitCharAux sep cs (c :: acc)

/-- Python `s.split(sep)` for a one-character separator: `"".split(sep)`
is `[""]`, adjacent separators yield empty pieces. -/
def pySplit (sep : Char) (s : String) : List String :=
  (splitCharAux sep s.data []).map String.mk

/-- Python whitespace for `str.strip()`: space, `\t`, `\n`, `\v`, `\f`,
`\r` (code points 32 and 9–13). -/
def isPySpace (c : Char) : Bool :=
  c.toNat == 32 || (9 ≤ c.toNat && c.toNat ≤ 13)

/-- Python `s.strip()`: drop leading and trailing whitespace. -/
def pyStrip (s : String) : String :=
  String.mk (((s.data.dropWhile isPySpace).reverse.dropWhile isPySpace).reverse)

/-- Python `a < b` on strings: lexicographic comparison by code point. -/
def pyLtChars : List Char → List Char → Bool
  | [], [] => false
  | [], _ :: _ => true
  | _ :: _, [] => false
  | a :: as, b :: bs =>
    if a.toNat < b.toNat then true
    else if b.toNat < a.toNat then false
    else pyLtChars as bs

/-- Python `a < b` on strings. -/
def pyLtString (a b : String) : Bool :=
  pyLtChars a.data b.data

/-- `get_tag_value(x, key)`: first `Value` whose `Key` matches, else `''`;
`''` as well when the tag list itself is `None`. -/
def get_tag_value (x : Option (List Tag)) (key : String) : String :=
  match x with
  | none => ""
  | some tags =>
    match (tags.filter (fun y => y.key == key)).head? with
    | some y => y.value
    | none => ""

/-- `_get_max_name_len(instances)`: max length of the `Name` tag value, 0 for
an empty collection (the Python returns via a for-loop only when non-empty). -/
def _get_max_name_len (instances : List Instance) : Nat :=
  match instances with
  | [] => 0
  | _ => (instances.map (fun i => (get_tag_value i.tags "Name").length)).foldl max 0

/-- Python's `'{0:<w}'.format(s)`: left-justify by padding with spaces (no
truncation when `s` is already longer). -/
def ljust (s : String) (w : Nat) : String :=
  s ++ String.mk (List.replicate (w - s.length) ' ')

/-- `format_output(instances, flag)`: one line per instance.  Tab-delimited by
default; `flag` selects the aligned fixed-width layout.  Fields: Name tag,
state, id, private address, public address (both addresses via `str`, so an
absent one renders as "None"). -/
def format_output (instances : List Instance) (flag : Bool) : List String :=
  let name_len := _get_max_name_len instances + 3
  instances.map (fun i =>
    let tag_name := get_tag_value i.tags "Name"
    if flag then
      ljust tag_name name_len ++ ljust i.state_Name 16 ++ ljust i.id 21 ++
        ljust (pyStr i.private_ip_address) 16 ++ ljust (pyStr i.public_ip_address) 16
    else
      tag_name ++ "\t" ++ i.state_Name ++ "\t" ++ i.id ++ "\t" ++
        pyStr i.private_ip_address ++ "\t" ++ pyStr i.public_ip_address)

/-- `_get_instance_ip_address(instance, use_private_ip)`.  Returns the chosen
address together with a flag recording whether the "Public IP address not
set" warning was echoed; the function always returns normally (the fallback
is non-fatal). -/
def _get_instance_ip_address (inst : Instance) (use_private_ip : Bool) :
    Option String × Bool :=
  if use_private_ip then (inst.private_ip_address, false)
  else if inst.public_ip_address.isSome then (inst.public_ip_address, false)
  else (inst.private_ip_address, true)

/-- Python dict assignment `d[k] = v` on an insertion-ordered association
list: overwrite in place when the key exists, else append. -/
def dict_set (d : List (String × String)) (k v : String) :
    List (String × String) :=
  if d.any (fun p => p.1 == k) then
    d.map (fun p => if p.1 == k then (p.1, v) else p)
  else d ++ [(k, v)]

/-- `_parse_tags(tags)`: split on `','`, strip each entry and split it on
`':'`; the tuple unpacking `tag_key, tag_value = ...` raises (modelled as
`none`) unless the split yields exactly two parts. -/
def _parse_tags (tags : String) : Option (List (String × String)) :=
  (pySplit ',' tags).foldlM
    (fun tags_dict tag =>
      match pySplit ':' (pyStrip tag) with
      | [tag_key, tag_value] => some (dict_set tags_dict tag_key tag_value)
      | _ => none)
    []

/-- One step of Python's stable `sorted(..., key=Name tag)`: insert `x` after
every already-placed element whose key is strictly smaller, and before the
first element whose key is ≥ — so elements with equal keys keep their
original relative order. -/
def insertByName (x : Instance) : List Instance → List Instance
  | [] => [x]
  | y :: ys =>
    if pyLtString (get_tag_value y.tags "Name") (get_tag_value x.tags "Name") then
      y :: insertByName x ys
    else x :: y :: ys

/-- `sorted(instances, key=lambda instance: get_tag_value(instance.tags, 'Name'))`:
stable ascending sort by the `Name` tag value (ties keep provider order). -/
def sortByNameTag : List Instance → List Instance
  | [] => []
  | x :: xs => insertByName x (sortByNameTag xs)

/-- The line `'[{0}]: {1}\t{2}\t{3}\t{4}\t{5}'` echoed for candidate `i` at
index `idx` during multi-match disambiguation: index, id, public address,
state, Name tag, key-pair name. -/
def candidateLine (idx : Nat) (i : Instance) : String :=
  "[" ++ toString idx ++ "]: " ++ i.id ++ "\t" ++ pyStr i.public_ip_address ++
    "\t" ++ i.state_Name ++ "\t" ++ get_tag_value i.tags "Name" ++ "\t" ++
    pyStr i.key_name

instance {ε α : Type _} [DecidableEq ε] [DecidableEq α] :
    DecidableEq (Except ε α) := fun x y =>
  match x, y with
  | .error a, .error b =>
    if h : a = b then isTrue (by rw [h]) else isFalse (by simp [h])
  | .error _, .ok _ => isFalse (by simp)
  | .ok _, .error _ => isFalse (by simp)
  | .ok a, .ok b =>
    if h : a = b then isTrue (by rw [h]) else isFalse (by simp [h])

/-- Outcome of the instance-resolution phase of `create_ssh_command`:
the candidate lines echoed before any prompt, whether the prompt ran, and
either `sys.exit` code or the chosen instance with the hostname returned by
`_get_instance_ip_address` and its warning flag. -/
structure ResolveResult where
  echoed : List String
  prompted : Bool
  outcome : Except Nat (Instance × Option String × Bool)
deriving DecidableEq

/-- The by-tags branch of `create_ssh_command` (`elif instance_tags is not
None`), applied to the already-filtered query result.  Sorts by `Name` tag
into `target_instances`; a single match resolves silently; otherwise the
candidate list is echoed by enumerating the *unsorted* query result, the
prompt is shown once (response `none` = enter = click default 0), an index
outside `[0, N)` exits with code 2 without re-prompting, and an in-range
index selects from the *sorted* list. -/
def resolve_by_tags (instances : List Instance) (use_private_ip : Bool)
    (promptResponse : Option Int) : ResolveResult :=
  let target_instances := sortByNameTag instances
  if h1 : target_instances.length = 1 then
    let inst := target_instances.get ⟨0, by omega⟩
    let hw := _get_instance_ip_address inst use_private_ip
    ⟨[], false, .ok (inst, hw.1, hw.2)⟩
  else
    let lines := instances.enum.map (fun p => candidateLine p.1 p.2)
    let selected_idx : Int := promptResponse.getD 0
    if h2 : (target_instances.length : Int) - 1 < selected_idx ∨
        selected_idx < 0 then
      ⟨lines, true, .error 2⟩
    else
      let inst := target_instances.get ⟨selected_idx.toNat, by omega⟩
      let hw := _get_instance_ip_address inst use_private_ip
      ⟨lines, true, .ok (inst, hw.1, hw.2)⟩

/-- The boto3 filter conditions built in the by-tags branch: the fixed
`instance-state-name = running` condition followed by one `tag:<key>`
condition per requested tag. -/
def tagConditions (instance_tags : List (String × String)) :
    List (String × List String) :=
  ("instance-state-name", ["running"]) ::
    instance_tags.map (fun kv => ("tag:" ++ kv.1, [kv.2]))

/-- Abstract EC2 provider: `byId` models `ec2.Instance(id)` followed by an
attribute access (`none` = the provider raises `ClientError`); `filter`
models `ec2.instances.filter(Filters=conditions)`. -/
structure EC2 where
  byId : String → Option Instance
  filter : List (String × List String) → List Instance

/-- `build_option_username(username)`. -/
def build_option_username : Option String → String
  | none => ""
  | some u => " -l " ++ u

/-- The `key_file_option` computed inside `create_ssh_command`. -/
def build_option_key_file : Option String → String
  | none => ""
  | some k => " -i " ++ k

/-- The normalisation of `ssh_options` inside `create_ssh_command`:
`''` when absent, otherwise a leading space plus the verbatim text. -/
def build_option_ssh_options : Option String → String
  | none => ""
  | some s => " " ++ s

/-- Result of `create_ssh_command`: echoed lines, whether the prompt ran,
and either a `sys.exit` code or the composed command string. -/
structure CmdResult where
  echoed : List String
  prompted : Bool
  result : Except Nat String
deriving DecidableEq

/-- `create_ssh_command(session, instance_id, instance_tags, username,
key_file, port, ssh_options, use_private_ip, gateway_instance_id,
gateway_username)`.  Resolution: by id (a provider error exits 2) or by tags
via `resolve_by_tags` on the state-and-tag-filtered query; when both
selectors are absent the Python falls through with `hostname` unbound and
crashes (exit 1) — unreachable from the CLI driver.  Composition: without a
gateway a direct `ssh` command; with one, the target address is overwritten
with the instance's private address and a double-hop command is produced
(a failing gateway lookup is an uncaught `ClientError`, exit 1). -/
def create_ssh_command (ec2 : EC2) (instance_id : Option String)
    (instance_tags : Option (List (String × String)))
    (username key_file : Option String) (port : Nat)
    (ssh_options : Option String) (use_private_ip : Bool)
    (gateway_instance_id gateway_username : Option String)
    (promptResponse : Option Int) : CmdResult :=
  let resolved : ResolveResult :=
    match instance_id with
    | some iid =>
      match ec2.byId iid with
      | some inst =>
        let hw := _get_instance_ip_address inst use_private_ip
        ⟨[], false, .ok (inst, hw.1, hw.2)⟩
      | none => ⟨[], false, .error 2⟩
    | none =>
      match instance_tags with
      | some t =>
        resolve_by_tags (ec2.filter (tagConditions t)) use_private_ip
          promptResponse
      | none => ⟨[], false, .error 1⟩
  match resolved.outcome with
  | .error c => ⟨resolved.echoed, resolved.prompted, .error c⟩
  | .ok (inst, hostname, _warned) =>
    let key_file_option := build_option_key_file key_file
    let gateway_username_option := build_option_username gateway_username
    let username_option := build_option_username username
    let ssh_options_str := build_option_ssh_options ssh_options
    match gateway_instance_id with
    | some gid =>
      match ec2.byId gid with
      | some gateway_instance =>
        let gateway_public_ip := gateway_instance.public_ip_address
        let hostname2 := inst.private_ip_address
        ⟨resolved.echoed, resolved.prompted, .ok
          ("ssh -tt" ++ gateway_username_option ++ " " ++
            pyStr gateway_public_ip ++ key_file_option ++ " -p " ++
            toString port ++ ssh_options_str ++ " ssh" ++ username_option ++
            " " ++ pyStr hostname2)⟩
      | none => ⟨resolved.echoed, resolved.prompted, .error 1⟩
    | none =>
      ⟨resolved.echoed, resolved.prompted, .ok
        ("ssh" ++ username_option ++ " " ++ pyStr hostname ++
          key_file_option ++ " -p " ++ toString port ++ ssh_options_str)⟩

/-- Observable effects of one run of the `ssh` CLI command: echoed lines,
whether the prompt ran, the command handed to `subprocess.call` (if any),
the command printed by `--dry-run` (if any), and the process exit code. -/
structure SSHOut where
  echoed : List String
  prompted : Bool
  executedCmd : Option String
  printedCmd : Option String
  exitCode : Nat
deriving DecidableEq

/-- The tail of the `ssh` CLI command after the selection-flag check:
resolve and compose via `create_ssh_command`, then either execute the
command through the shell (its exit status `shellExit` is discarded — the
function falls off the end, so click exits 0) or, with `--dry-run`, print
it and exit 0. -/
def ssh_resolve_and_connect (ec2 : EC2) (instance_id : Option String)
    (instance_tags_dict : Option (List (String × String)))
    (username key_file : Option String) (port : Nat)
    (ssh_options : Option String) (private_ip : Bool)
    (gateway_instance_id gateway_username : Option String) (dry_run : Bool)
    (promptResponse : Option Int) (shellExit : Int) : SSHOut :=
  let r := create_ssh_command ec2 instance_id instance_tags_dict username
    key_file port ssh_options private_ip gateway_instance_id
    gateway_username promptResponse
  match r.result with
  | .error c => ⟨r.echoed, r.prompted, none, none, c⟩
  | .ok cmd =>
    if !dry_run then ⟨r.echoed, r.prompted, some cmd, none, 0⟩
    else ⟨r.echoed, r.prompted, none, some cmd, 0⟩

/-- The straight-line tail of the `ssh` CLI command after its
selection-flag check: build `instance_tags_dict` (`--instance-name n` is
sugar for `{'Name': n}`; a malformed `--instance-tags` string is an
uncaught `ValueError` from `_parse_tags`, exit 1) and hand over to
`ssh_resolve_and_connect`. -/
def ssh_dispatch (ec2 : EC2)
    (instance_id instance_name instance_tags : Option String)
    (username key_file : Option String) (port : Nat)
    (ssh_options : Option String) (private_ip : Bool)
    (gateway_instance_id gateway_username : Option String) (dry_run : Bool)
    (promptResponse : Option Int) (shellExit : Int) : SSHOut :=
  match instance_name, instance_tags with
  | some n, _ =>
    ssh_resolve_and_connect ec2 instance_id (some [("Name", n)]) username
      key_file port ssh_options private_ip gateway_instance_id
      gateway_username dry_run promptResponse shellExit
  | none, some t =>
    match _parse_tags t with
    | some d =>
      ssh_resolve_and_connect ec2 instance_id (some d) username key_file
        port ssh_options private_ip gateway_instance_id gateway_username
        dry_run promptResponse shellExit
    | none => ⟨[], false, none, none, 1⟩
  | none, none =>
    ssh_resolve_and_connect ec2 instance_id none username key_file port
      ssh_options private_ip gateway_instance_id gateway_username dry_run
      promptResponse shellExit

/-- The `ssh` CLI command.  `filters = (id, name, tags).count(None)`:
all three absent or more than one present exit 1 before any provider
contact, then `ssh_dispatch`. -/
def ssh (ec2 : EC2) (instance_id instance_name instance_tags : Option String)
    (username key_file : Option String) (port : Nat)
    (ssh_options : Option String) (private_ip : Bool)
    (gateway_instance_id gateway_username : Option String) (dry_run : Bool)
    (promptResponse : Option Int) (shellExit : Int) : SSHOut :=
  let filters :=
    [instance_id, instance_name, instance_tags].countP (fun x => x.isNone)
  if filters = 3 then ⟨[], false, none, none, 1⟩
  else if filters < 2 then ⟨[], false, none, none, 1⟩
  else
    ssh_dispatch ec2 instance_id instance_name instance_tags username
      key_file port ssh_options private_ip gateway_instance_id
      gateway_username dry_run promptResponse shellExit

/-- Does the character list `l` start with `sub`? -/
def startsWithChars : List Char → List Char → Bool
  | [], _ => true
  | _ :: _, [] => false
  | a :: as, b :: bs => a == b && startsWithChars as bs

/-- Count of (possibly overlapping) occurrences of `sub` in the suffixes of
a character list. -/
def countOccsAux (sub : List Char) : List Char → Nat
  | [] => if startsWithChars sub [] then 1 else 0
  | c :: cs =>
    (if startsWithChars sub (c :: cs) then 1 else 0) + countOccsAux sub cs

/-- Number of occurrences of the substring `sub` in `s`. -/
def countOccs (sub s : String) : Nat :=
  countOccsAux sub.data s.data

/- Concrete fixtures used to instantiate the theorems below. -/

/-- A running instance named "a". -/
def iA : Instance :=
  ⟨"i-a", some [⟨"Name", "a"⟩], "running", some "10.0.0.1", some "54.0.0.1",
    some "ka"⟩

/-- A running instance named "b". -/
def iB : Instance :=
  ⟨"i-b", some [⟨"Name", "b"⟩], "running", some "10.0.0.2", some "54.0.0.2",
    some "kb"⟩

/-- An instance with no tags and no public address. -/
def iNoPub : Instance :=
  ⟨"i-nopub", none, "running", some "10.9.9.9", none, none⟩

/-- A target instance with private address 10.0.0.5. -/
def instTarget : Instance :=
  ⟨"i-target", some [⟨"Name", "t"⟩], "running", some "10.0.0.5",
    some "54.1.1.1", some "kp"⟩

/-- A gateway instance with public address 3.3.3.3. -/
def instGw : Instance :=
  ⟨"i-gw", none, "running", none, some "3.3.3.3", none⟩

/-- A provider environment knowing `instTarget` and `instGw` and returning
no matches for any filtered query. -/
def ec2ex : EC2 :=
  ⟨fun s =>
    if s == "i-target" then some instTarget
    else if s == "i-gw" then some instGw
    else none,
   fun _ => []⟩

theorem insertByName_length (x : Instance) (l : List Instance) :
    (insertByName x l).length = l.length + 1 := by
  induction l with
  | nil => rfl
  | cons y ys ih =>
    simp only [insertByName]
    split <;> simp [ih]

theorem sortByNameTag_length (l : List Instance) :
    (sortByNameTag l).length = l.length := by
  induction l with
  | nil => rfl
  | cons x xs ih => simp [sortByNameTag, insertByName_length, ih]

/-- Claim C1: with a gateway instance id, `create_ssh_command` switches the
target address to the resolved instance's private address unconditionally —
the right-hand side does not mention `use_private_ip` or the hostname the
resolution phase produced — and composes a double-hop command: connect to
the gateway's public address with the optional gateway-username flag plus
key-file, port and extra options, then a nested `ssh` to the target's
private address with the non-gateway username flag.  The concrete conjuncts
check the spec's example: two `ssh` segments, gateway 3.3.3.3 first, nested
hop to 10.0.0.5 last. -/
theorem C1_gateway_compose (ec2 : EC2) (iid gid : String)
    (inst gw : Instance)
    (username key_file ssh_options gateway_username : Option String)
    (port : Nat) (use_private_ip : Bool) (promptResponse : Option Int)
    (hinst : ec2.byId iid = some inst) (hgw : ec2.byId gid = some gw) :
    (create_ssh_command ec2 (some iid) none username key_file port
        ssh_options use_private_ip (some gid) gateway_username
        promptResponse).result =
      .ok ("ssh -tt" ++ build_option_username gateway_username ++ " " ++
        pyStr gw.public_ip_address ++ build_option_key_file key_file ++
        " -p " ++ toString port ++ build_option_ssh_options ssh_options ++
        " ssh" ++ build_option_username username ++ " " ++
        pyStr inst.private_ip_address) ∧
    countOccs "ssh" "ssh -tt -l admin 3.3.3.3 -p 22 ssh 10.0.0.5" = 2 ∧
    "ssh -tt -l admin 3.3.3.3 -p 22 ssh 10.0.0.5" =
      "ssh -tt -l admin " ++ "3.3.3.3" ++ " -p 22" ++ " ssh " ++
        "10.0.0.5" := by
  refine ⟨?_, by decide, by decide⟩
  simp [create_ssh_command, hinst, hgw]

/-- Witness for C1: in the concrete environment, the gateway command for
target `i-target` (private 10.0.0.5) through gateway `i-gw` (public
3.3.3.3) as `admin` — computed with `use_private_ip = true`, which does not
affect the result. -/
theorem C1_gateway_compose_witness :
    ec2ex.byId "i-target" = some instTarget ∧
    ec2ex.byId "i-gw" = some instGw ∧
    (create_ssh_command ec2ex (some "i-target") none none none 22 none true
        (some "i-gw") (some "admin") none).result =
      .ok "ssh -tt -l admin 3.3.3.3 -p 22 ssh 10.0.0.5" := by
  refine ⟨rfl, rfl, ?_⟩
  rw [(C1_gateway_compose ec2ex "i-target" "i-gw" instTarget instGw none
    none none (some "admin") 22 true none rfl rfl).1]
  rfl

/-- Claim C2: in the by-tags path, exactly one match resolves without
prompting; the prompt's default response (`none`, i.e. pressing enter)
behaves as index 0; with `N > 1` matches an index `0 ≤ i < N` selects the
`i`-th instance of the stably Name-sorted list; an index outside `[0, N)`
exits with code 2 (the single prompt is never re-run: `resolve_by_tags`
consumes exactly one response). -/
theorem C2_tag_resolution (instances : List Instance) (b : Bool) (i : Int) :
    (∀ inst pr, resolve_by_tags [inst] b pr =
      ⟨[], false, .ok (inst, (_get_instance_ip_address inst b).1,
        (_get_instance_ip_address inst b).2)⟩) ∧
    (resolve_by_tags instances b none =
      resolve_by_tags instances b (some 0)) ∧
    (1 < instances.length → 0 ≤ i → i < (instances.length : Int) →
      ∃ h : i.toNat < (sortByNameTag instances).length,
        (resolve_by_tags instances b (some i)).prompted = true ∧
        (resolve_by_tags instances b (some i)).outcome =
          .ok ((sortByNameTag instances).get ⟨i.toNat, h⟩,
            (_get_instance_ip_address
              ((sortByNameTag instances).get ⟨i.toNat, h⟩) b).1,
            (_get_instance_ip_address
              ((sortByNameTag instances).get ⟨i.toNat, h⟩) b).2)) ∧
    (1 < instances.length → (i < 0 ∨ (instances.length : Int) ≤ i) →
      resolve_by_tags instances b (some i) =
        ⟨instances.enum.map (fun p => candidateLine p.1 p.2), true,
          .error 2⟩) := by
  have hlen := sortByNameTag_length instances
  refine ⟨fun inst pr => rfl, rfl, fun h1 h2 h3 => ?_, fun h1 h4 => ?_⟩
  · have hne : ¬ (sortByNameTag instances).length = 1 := by omega
    have hidx : i.toNat < (sortByNameTag instances).length := by omega
    refine ⟨hidx, ?_, ?_⟩ <;>
      · unfold resolve_by_tags
        rw [dif_neg hne, dif_neg (by simp only [Option.getD_some]; omega)]
        try rfl
  · have hne : ¬ (sortByNameTag instances).length = 1 := by omega
    unfold resolve_by_tags
    rw [dif_neg hne, dif_pos (by simp only [Option.getD_some]; omega)]

/-- Witness for C2: two instances given in provider order `[iB, iA]`
(Name-sorted order `[iA, iB]`): index 1 selects `iB`, index 5 exits with
code 2, and a single match resolves without prompting. -/
theorem C2_tag_resolution_witness :
    (1 : Nat) < 2 ∧ (0 : Int) ≤ 1 ∧ (1 : Int) < 2 ∧
    (resolve_by_tags [iB, iA] false (some 1)).outcome =
      .ok (iB, some "54.0.0.2", false) ∧
    resolve_by_tags [iB, iA] false (some 5) =
      ⟨[candidateLine 0 iB, candidateLine 1 iA], true, .error 2⟩ ∧
    resolve_by_tags [iA] true (some 99) =
      ⟨[], false, .ok (iA, some "10.0.0.1", false)⟩ := by
  refine ⟨by decide, by decide, by decide, ?_, ?_, ?_⟩
  · have ha : 1 < ([iB, iA] : List Instance).length := by decide
    have hb : (0 : Int) ≤ 1 := by decide
    have hc : (1 : Int) < (([iB, iA] : List Instance).length : Int) := by
      decide
    obtain ⟨h, hp, ho⟩ := (C2_tag_resolution [iB, iA] false 1).2.2.1 ha hb hc
    exact ho.trans rfl
  · have ha : 1 < ([iB, iA] : List Instance).length := by decide
    have hd : (5 : Int) < 0 ∨ (([iB, iA] : List Instance).length : Int) ≤ 5 := by
      right; decide
    exact ((C2_tag_resolution [iB, iA] false 5).2.2.2 ha hd).trans rfl
  · exact ((C2_tag_resolution [iB, iA] true 0).1 iA (some 99)).trans rfl

/-- Claim C3: `_get_instance_ip_address` returns the private address
whenever the use-private flag is set (regardless of the public address),
otherwise the public address when present, and otherwise falls back to the
private address while emitting the (non-fatal) warning — the function
returns normally in every case. -/
theorem C3_address_resolution (inst : Instance) :
    _get_instance_ip_address inst true = (inst.private_ip_address, false) ∧
    (∀ p, inst.public_ip_address = some p →
      _get_instance_ip_address inst false = (some p, false)) ∧
    (inst.public_ip_address = none →
      _get_instance_ip_address inst false = (inst.private_ip_address, true)) := by
  refine ⟨rfl, fun p hp => ?_, fun hn => ?_⟩
  · simp [_get_instance_ip_address, hp]
  · simp [_get_instance_ip_address, hn]

/-- Witness for C3: `instGw` has a public address, `iNoPub` does not; the
three branches evaluated on them. -/
theorem C3_address_resolution_witness :
    instGw.public_ip_address = some "3.3.3.3" ∧
    iNoPub.public_ip_address = none ∧
    _get_instance_ip_address instGw true = (none, false) ∧
    _get_instance_ip_address instGw false = (some "3.3.3.3", false) ∧
    _get_instance_ip_address iNoPub false = (some "10.9.9.9", true) :=
  ⟨rfl, rfl, by simpa [instGw] using (C3_address_resolution instGw).1,
    (C3_address_resolution instGw).2.1 "3.3.3.3" rfl,
    by simpa [iNoPub] using (C3_address_resolution iNoPub).2.2 rfl⟩

/-- Claim C4: without a gateway, `create_ssh_command` composes a direct
command: optional `-l` username flag, hostname, optional `-i` key-file
flag, always `-p port`, verbatim extra options last.  The concrete
conjuncts check the spec's example `ssh -l bob 10.0.0.5 -p 22`: it contains
`-l bob`, the address and `-p 22`, and exactly one `ssh` segment (no
double-hop). -/
theorem C4_direct_compose (ec2 : EC2) (iid : String) (inst : Instance)
    (username key_file ssh_options gu : Option String) (port : Nat)
    (use_private_ip : Bool) (pr : Option Int)
    (hinst : ec2.byId iid = some inst) :
    (create_ssh_command ec2 (some iid) none username key_file port
        ssh_options use_private_ip none gu pr).result =
      .ok ("ssh" ++ build_option_username username ++ " " ++
        pyStr (_get_instance_ip_address inst use_private_ip).1 ++
        build_option_key_file key_file ++ " -p " ++ toString port ++
        build_option_ssh_options ssh_options) ∧
    (create_ssh_command ec2ex (some "i-target") none (some "bob") none 22
        none true none none none).result = .ok "ssh -l bob 10.0.0.5 -p 22" ∧
    countOccs "-l bob" "ssh -l bob 10.0.0.5 -p 22" = 1 ∧
    countOccs "10.0.0.5" "ssh -l bob 10.0.0.5 -p 22" = 1 ∧
    countOccs "-p 22" "ssh -l bob 10.0.0.5 -p 22" = 1 ∧
    countOccs "ssh" "ssh -l bob 10.0.0.5 -p 22" = 1 := by
  refine ⟨?_, by decide, by decide, by decide, by decide, by decide⟩
  simp [create_ssh_command, hinst]

/-- Witness for C4: the direct command for `i-target` with username `bob`
and `use_private_ip = true` (private address 10.0.0.5). -/
theorem C4_direct_compose_witness :
    ec2ex.byId "i-target" = some instTarget ∧
    (create_ssh_command ec2ex (some "i-target") none (some "bob") none 22
        none true none none none).result = .ok "ssh -l bob 10.0.0.5 -p 22" :=
  ⟨rfl, (C4_direct_compose ec2ex "i-target" instTarget (some "bob") none
    none none 22 true none rfl).2.1⟩

/-- Claim C5 (code bug): with provider order `[iB, iA]` (Names "b", "a"),
the candidate list is echoed in *provider* order — `[0]` shows `i-b` — but
selecting index 0 resolves to `iA`, the head of the Name-sorted list, so
the display is *not* the Name-sorted enumeration the selection indexes
into. -/
theorem C5_display_order_mismatch :
    (resolve_by_tags [iB, iA] false (some 0)).echoed =
      ["[0]: i-b\t54.0.0.2\trunning\tb\tkb",
       "[1]: i-a\t54.0.0.1\trunning\ta\tka"] ∧
    (resolve_by_tags [iB, iA] false (some 0)).outcome =
      .ok (iA, some "54.0.0.1", false) ∧
    sortByNameTag [iB, iA] = [iA, iB] ∧
    (resolve_by_tags [iB, iA] false (some 0)).echoed ≠
      (sortByNameTag [iB, iA]).enum.map (fun p => candidateLine p.1 p.2) := by
  decide

/-- Claim C6, counterexample: a non-dry run whose shell command exits with
status 5 — the command is executed, but the tool's exit code is 0, not 5
(`subprocess.call`'s return value is discarded). -/
theorem C6_exit_status_not_inherited :
    (ssh ec2ex (some "i-target") none none (some "bob") none 22 none true
      none none false none 5).executedCmd =
        some "ssh -l bob 10.0.0.5 -p 22" ∧
    (ssh ec2ex (some "i-target") none none (some "bob") none 22 none true
      none none false none 5).exitCode = 0 ∧
    (ssh ec2ex (some "i-target") none none (some "bob") none 22 none true
      none none false none 5).exitCode ≠ 5 := by
  decide

/-- Claim C6, amended: the run is independent of the delegated command's
exit status; with `--dry-run` nothing is executed, without it nothing is
printed as a dry-run; every run either exits 0 or executed/printed
nothing (the error paths); concretely, the dry run prints the composed
command and exits 0, and the non-dry run executes it and exits 0. -/
theorem C6_dry_run_and_execution (ec2 : EC2)
    (iid nm tg username key_file : Option String) (port : Nat)
    (opts : Option String) (pip : Bool) (gid gu : Option String)
    (dry_run : Bool) (pr : Option Int) (s1 s2 : Int) :
    ssh ec2 iid nm tg username key_file port opts pip gid gu dry_run pr s1 =
      ssh ec2 iid nm tg username key_file port opts pip gid gu dry_run pr
        s2 ∧
    (ssh ec2 iid nm tg username key_file port opts pip gid gu true pr
      s1).executedCmd = none ∧
    (ssh ec2 iid nm tg username key_file port opts pip gid gu false pr
      s1).printedCmd = none ∧
    ((ssh ec2 iid nm tg username key_file port opts pip gid gu dry_run pr
        s1).exitCode = 0 ∨
      ((ssh ec2 iid nm tg username key_file port opts pip gid gu dry_run pr
          s1).executedCmd = none ∧
        (ssh ec2 iid nm tg username key_file port opts pip gid gu dry_run pr
          s1).printedCmd = none)) ∧
    ssh ec2ex (some "i-target") none none (some "bob") none 22 none true
        none none true none s1 =
      ⟨[], false, none, some "ssh -l bob 10.0.0.5 -p 22", 0⟩ ∧
    ssh ec2ex (some "i-target") none none (some "bob") none 22 none true
        none none false none s1 =
      ⟨[], false, some "ssh -l bob 10.0.0.5 -p 22", none, 0⟩ := by
  refine ⟨rfl, ?_, ?_, ?_, rfl, rfl⟩
  · unfold ssh ssh_dispatch ssh_resolve_and_connect
    dsimp only
    repeat' split
    all_goals first | rfl | simp_all
  · unfold ssh ssh_dispatch ssh_resolve_and_connect
    dsimp only
    repeat' split
    all_goals first | rfl | simp_all
  · unfold ssh ssh_dispatch ssh_resolve_and_connect
    dsimp only
    repeat' split
    all_goals first
      | exact Or.inl rfl
      | exact Or.inr ⟨rfl, rfl⟩

/-- Claim C7: with zero or two-or-more of the three selection flags the
`ssh` command exits 1 immediately with the same result for *every*
provider environment (nothing echoed, nothing executed); with exactly one
flag the run proceeds to the post-check dispatch. -/
theorem C7_selection_flag_check (ec2 ec2' : EC2)
    (iid nm tg username key_file : Option String) (port : Nat)
    (opts : Option String) (pip : Bool) (gid gu : Option String)
    (dry : Bool) (pr : Option Int) (se : Int) :
    ((iid = none ∧ nm = none ∧ tg = none) ∨
        (iid.isSome ∧ nm.isSome) ∨ (iid.isSome ∧ tg.isSome) ∨
        (nm.isSome ∧ tg.isSome) →
      ssh ec2 iid nm tg username key_file port opts pip gid gu dry pr se =
        ⟨[], false, none, none, 1⟩ ∧
      ssh ec2 iid nm tg username key_file port opts pip gid gu dry pr se =
        ssh ec2' iid nm tg username key_file port opts pip gid gu dry pr
          se) ∧
    ((iid.isSome ∧ nm = none ∧ tg = none) ∨
        (iid = none ∧ nm.isSome ∧ tg = none) ∨
        (iid = none ∧ nm = none ∧ tg.isSome) →
      ssh ec2 iid nm tg username key_file port opts pip gid gu dry pr se =
        ssh_dispatch ec2 iid nm tg username key_file port opts pip gid gu
          dry pr se) := by
  constructor
  · rintro (⟨rfl, rfl, rfl⟩ | ⟨h1, h2⟩ | ⟨h1, h2⟩ | ⟨h1, h2⟩)
    · exact ⟨rfl, rfl⟩
    · obtain ⟨x, rfl⟩ := Option.isSome_iff_exists.mp h1
      obtain ⟨y, rfl⟩ := Option.isSome_iff_exists.mp h2
      cases tg <;> exact ⟨rfl, rfl⟩
    · obtain ⟨x, rfl⟩ := Option.isSome_iff_exists.mp h1
      obtain ⟨y, rfl⟩ := Option.isSome_iff_exists.mp h2
      cases nm <;> exact ⟨rfl, rfl⟩
    · obtain ⟨x, rfl⟩ := Option.isSome_iff_exists.mp h1
      obtain ⟨y, rfl⟩ := Option.isSome_iff_exists.mp h2
      cases iid <;> exact ⟨rfl, rfl⟩
  · rintro (⟨h1, rfl, rfl⟩ | ⟨rfl, h1, rfl⟩ | ⟨rfl, rfl, h1⟩) <;>
      obtain ⟨x, rfl⟩ := Option.isSome_iff_exists.mp h1 <;> rfl

/-- Witness for C7: zero flags exit 1; two flags exit 1; exactly one flag
proceeds to the dispatch. -/
theorem C7_selection_flag_check_witness :
    ssh ec2ex none none none none none 22 none false none none false none
      0 = ⟨[], false, none, none, 1⟩ ∧
    ssh ec2ex (some "i-a") (some "a") none none none 22 none false none
      none false none 0 = ⟨[], false, none, none, 1⟩ ∧
    ssh ec2ex (some "i-target") none none none none 22 none false none none
      false none 0 =
      ssh_dispatch ec2ex (some "i-target") none none none none 22 none
        false none none false none 0 :=
  ⟨((C7_selection_flag_check ec2ex ec2ex none none none none none 22 none
      false none none false none 0).1 (Or.inl ⟨rfl, rfl, rfl⟩)).1,
   ((C7_selection_flag_check ec2ex ec2ex (some "i-a") (some "a") none none
      none 22 none false none none false none 0).1
        (Or.inr (Or.inl ⟨rfl, rfl⟩))).1,
   (C7_selection_flag_check ec2ex ec2ex (some "i-target") none none none
      none 22 none false none none false none 0).2
        (Or.inl ⟨rfl, rfl, rfl⟩)⟩

/-- Claim C8: `_parse_tags` maps `"env:prod,role:web"` to
`{"env": "prod", "role": "web"}`; an entry without a colon (`"env"`,
`"env:prod,role"`) or with an embedded extra colon (`"a:b:c"`) is a fatal
parse error — at the CLI level the run exits 1 before any provider
contact. -/
theorem C8_parse_tags_spec :
    _parse_tags "env:prod,role:web" =
      some [("env", "prod"), ("role", "web")] ∧
    _parse_tags "env" = none ∧
    _parse_tags "a:b:c" = none ∧
    _parse_tags "env:prod,role" = none ∧
    (∀ (ec2 : EC2) (username key_file : Option String) (port : Nat)
        (opts : Option String) (pip : Bool) (gid gu : Option String)
        (dry : Bool) (pr : Option Int) (se : Int),
      ssh ec2 none none (some "env") username key_file port opts pip gid gu
          dry pr se = ⟨[], false, none, none, 1⟩) := by
  refine ⟨by decide, by decide, by decide, by decide, ?_⟩
  intro ec2 username key_file port opts pip gid gu dry pr se
  rfl

/-- Claim C9, counterexample: an instance with no public address renders
its public-address field as `"None"` — Python's `str(None)` — not as the
empty string the claim asserts. -/
theorem C9_public_none_renders_None :
    format_output [iNoPub] false = ["\trunning\ti-nopub\t10.9.9.9\tNone"] ∧
    (pySplit '\t' "\trunning\ti-nopub\t10.9.9.9\tNone").getD 4 "" =
      "None" ∧
    "None" ≠ "" := by
  decide

/-- Claim C9, amended: each tab-delimited line carries Name tag, state, id,
private address, public address; a missing tag value renders as the empty
string; an absent address renders as `"None"` (the `str` of Python's null),
not the empty string. -/
theorem C9_listing_fields (instances : List Instance) :
    format_output instances false = instances.map (fun i =>
      get_tag_value i.tags "Name" ++ "\t" ++ i.state_Name ++ "\t" ++ i.id ++
        "\t" ++ pyStr i.private_ip_address ++ "\t" ++
        pyStr i.public_ip_address) ∧
    (∀ key, get_tag_value none key = "") ∧
    pyStr none = "None" ∧ (∀ s, pyStr (some s) = s) :=
  ⟨rfl, fun _ => rfl, rfl, fun _ => rfl⟩

/-- Claim C10: when the filtered query returns zero instances, every prompt
response — the default included — exits with code 2; `create_ssh_command`
neither resolves an instance nor composes a command. -/
theorem C10_zero_matches (ec2 : EC2) (t : List (String × String))
    (username key_file : Option String) (port : Nat) (opts : Option String)
    (b : Bool) (gid gu : Option String) (pr : Option Int)
    (hq : ec2.filter (tagConditions t) = []) :
    resolve_by_tags [] b pr = ⟨[], true, .error 2⟩ ∧
    (create_ssh_command ec2 none (some t) username key_file port opts b gid
        gu pr).result = .error 2 ∧
    (create_ssh_command ec2 none (some t) username key_file port opts b gid
        gu pr).echoed = [] := by
  have hres : resolve_by_tags [] b pr = ⟨[], true, .error 2⟩ := by
    unfold resolve_by_tags
    cases pr with
    | none => rfl
    | some i =>
      have h0 : sortByNameTag [] = [] := rfl
      rw [dif_neg (by simp [h0])]
      rw [dif_pos (by simp only [h0, List.length_nil, Nat.cast_zero]; omega)]
      simp
  refine ⟨hres, ?_, ?_⟩ <;>
    simp [create_ssh_command, hq, hres]

/-- Witness for C10: the concrete environment returns no matches for the
tag set `{env: prod}` and the run exits 2. -/
theorem C10_zero_matches_witness :
    ec2ex.filter (tagConditions [("env", "prod")]) = [] ∧
    (create_ssh_command ec2ex none (some [("env", "prod")]) none none 22
        none false none none none).result = .error 2 :=
  ⟨rfl, (C10_zero_matches ec2ex [("env", "prod")] none none 22 none false
    none none none rfl).2.1⟩

end Jungle
